import Mathlib

/-!
Verification of the MicroPython stub generator (`createstubs.py` and its
minified variant `createstubs_min.py`).

The development shallowly embeds the reflection-to-stub engine:

* `PyObj` models a runtime value as the walker observes it: its `repr`
  string, the `repr` of its type (the textual type tag the dispatch
  switches on), an optional string payload (used by the interpreter's
  `==` between a value and a `str`), and its attribute table in the
  order the runtime's `dir` enumeration yields it.  An attribute whose
  lookup raises carries `some errText` in its second component.
* `getObjAttributes` embeds `get_obj_attribs` / `get_obj_attributes`.
* `walkFuel`/`writeObjectStub` embed `_dump_object_stubs` /
  `write_object_stub`; both Python functions have the identical dispatch
  and emit the identical text, so one definition serves both.  The `Nat`
  fuel argument is only a termination device; `writeObjectStub_eq`
  proves the faithful recursion equation of the source.
* `dump_module_stub`, `create_module_stub`, `create_all_stubs` embed the
  module lifecycle of the two variants over an explicit `SysState`
  (module cache, written files, report, reclamation counter).
-/

namespace CreateStubs

/-- A runtime value as the stub walker observes it: `rep` is `repr(v)`,
`typ` is `repr(type(v))`, `strVal` is `some s` when the value is the
string `s` (Python `==` with a `str` compares this payload), and
`attrs` lists the attributes in `dir` order; an entry `(n, some e, _)`
means `getattr(obj, n)` raises with message `e`, while `(n, none, v)`
means the lookup yields `v`. -/
inductive PyObj : Type where
  | mk : String → String → Option String → List (String × Option String × PyObj) → PyObj

/-- One attribute as stored in a `PyObj`. -/
abbrev PyAttr := String × Option String × PyObj

/-- One entry of the `result` list of `get_obj_attribs`:
`(name, repr(val), repr(type(val)), val)`. -/
abbrev Item := String × String × String × PyObj

/-- `repr(v)` -/
def PyObj.rep : PyObj → String
  | .mk r _ _ _ => r

/-- `repr(type(v))` — the textual type tag the dispatch switches on. -/
def PyObj.typ : PyObj → String
  | .mk _ t _ _ => t

/-- The string payload, when the value is a `str`. -/
def PyObj.strVal : PyObj → Option String
  | .mk _ _ s _ => s

/-- The attribute table in `dir` enumeration order. -/
def PyObj.attrs : PyObj → List PyAttr
  | .mk _ _ _ a => a

/-- Python `==` between an arbitrary value and a `str`: true exactly when
the value is itself the equal string (module and class objects compare
unequal to every string). -/
def pyEqStr (o : PyObj) (s : String) : Bool :=
  match o.strVal with
  | some t => t == s
  | none => false

/-- Python `object_expr in problematic` where `problematic` is a list of
strings. -/
def pyInList (o : PyObj) (l : List String) : Bool :=
  l.any (fun s => pyEqStr o s)

/-- Python `c in s` for a single character. -/
def hasChar (s : String) (c : Char) : Bool :=
  s.data.contains c

/-- Python `s.startswith(pre)`. -/
def pyStartsWith (s pre : String) : Bool :=
  pre.data.isPrefixOf s.data

/-- Code-point lexicographic comparison on character lists — Python's
`<=` on strings restricted to the characters compared so far. -/
def charListLe : List Char → List Char → Bool
  | [], _ => true
  | _ :: _, [] => false
  | c :: cs, d :: ds => if c < d then true else if d < c then false else charListLe cs ds

/-- Python's `<=` on strings: code-point lexicographic order (the order
`sorted` uses). -/
def strLe (a b : String) : Bool := charListLe a.data b.data

/-- Python `s.replace('/', '.')` (single-character pattern). -/
def dotted (s : String) : String :=
  String.mk (s.data.map (fun c => if c = '/' then '.' else c))

/-- Python `s.replace('.', '/')` (single-character pattern). -/
def slashed (s : String) : String :=
  String.mk (s.data.map (fun c => if c = '.' then '/' else c))

/-- One `fp.write` performed by the walker, by emitted shape. -/
inductive Frag : Type where
  | fdefn : String → String → Frag
  | fassign : String → String → String → Frag
  | fclass : String → String → Frag
  | fnone : String → String → Frag
deriving DecidableEq

/-- The exact text the source writes for each fragment. -/
def Frag.render : Frag → String
  | .fdefn ind name => ind ++ "def " ++ name ++ "():\n" ++ ind ++ "    pass\n\n"
  | .fassign ind name rep => ind ++ name ++ " = " ++ rep ++ "\n"
  | .fclass ind name => "\n" ++ ind ++ "class " ++ name ++ ":\n" ++ ind ++ "    ''\n"
  | .fnone ind name => ind ++ name ++ " = None\n"

/-- Is this write a class header? -/
def Frag.isClass : Frag → Bool
  | .fclass _ _ => true
  | _ => false

/-- The indentation the fragment was written at. -/
def Frag.indentOf : Frag → String
  | .fdefn ind _ => ind
  | .fassign ind _ _ => ind
  | .fclass ind _ => ind
  | .fnone ind _ => ind

/-- The callable type tags of the dispatch. -/
def callableTags : List String := ["<class 'function'>", "<class 'bound_method'>"]

/-- The primitive-literal type tags of the dispatch. -/
def literalTags : List String := ["<class 'str'>", "<class 'int'>", "<class 'float'>"]

/-- The composite (class-defining) type tag of the dispatch. -/
def typeTag : String := "<class 'type'>"

/-- The `result` entry an attribute contributes when its lookup succeeds. -/
def attrItem (a : PyAttr) : Option Item :=
  match a.2.1 with
  | none => some (a.1, a.2.2.rep, a.2.2.typ, a.2.2)
  | some _ => none

/-- The error message `get_obj_attribs` accumulates for a failing lookup. -/
def attrErrText (name orep e : String) : String :=
  "Couldn't get attribute '" ++ name ++ "' from object '" ++ orep ++ "', Err: " ++ e

/-- The `errors` entry an attribute contributes when its lookup raises. -/
def attrErr (orep : String) (a : PyAttr) : Option String :=
  match a.2.1 with
  | none => none
  | some e => some (attrErrText a.1 orep e)

/-- `get_obj_attribs` / `get_obj_attributes`: walk `dir(obj)`, try
`getattr` on each name; successes land in `result` in order, failures
append a message to `errors` and the loop continues. -/
def getObjAttributes (o : PyObj) : List Item × List String :=
  (o.attrs.filterMap attrItem, o.attrs.filterMap (attrErr o.rep))

/-- The comparison `sorted(items, key=lambda x: x[0])` sorts by: tuple's
first component, i.e. the member name. -/
def itemLe (a b : Item) : Prop := strLe a.1 b.1 = true

instance : DecidableRel itemLe := fun a b =>
  inferInstanceAs (Decidable (strLe a.1 b.1 = true))

/-- `sorted(items, key=lambda x: x[0])`: a stable sort by member name. -/
def sortItems (items : List Item) : List Item :=
  items.insertionSort itemLe

theorem charListLe_total : ∀ a b : List Char, charListLe a b = true ∨ charListLe b a = true := by
  intro a
  induction a with
  | nil => intro b; exact Or.inl rfl
  | cons c cs ih =>
    intro b
    cases b with
    | nil => exact Or.inr rfl
    | cons d ds =>
      by_cases h1 : c < d
      · exact Or.inl (by simp [charListLe, h1])
      · by_cases h2 : d < c
        · exact Or.inr (by simp [charListLe, h2])
        · rcases ih ds with h | h
          · exact Or.inl (by simp [charListLe, h1, h2, h])
          · exact Or.inr (by simp [charListLe, h1, h2, h])

theorem charListLe_trans :
    ∀ a b c : List Char, charListLe a b = true → charListLe b c = true →
      charListLe a c = true := by
  intro a
  induction a with
  | nil => intro b c _ _; rfl
  | cons x xs ih =>
    intro b c hab hbc
    cases b with
    | nil => simp [charListLe] at hab
    | cons y ys =>
      cases c with
      | nil => simp [charListLe] at hbc
      | cons z zs =>
        simp only [charListLe] at hab hbc ⊢
        rcases lt_trichotomy x y with hxy | hxy | hxy
        · rcases lt_trichotomy y z with hyz | hyz | hyz
          · rw [if_pos (lt_trans hxy hyz)]
          · subst hyz; rw [if_pos hxy]
          · rw [if_neg (asymm hyz), if_pos hyz] at hbc
            exact Bool.noConfusion hbc
        · subst hxy
          rw [if_neg (lt_irrefl x), if_neg (lt_irrefl x)] at hab
          rcases lt_trichotomy x z with hxz | hxz | hxz
          · rw [if_pos hxz]
          · subst hxz
            rw [if_neg (lt_irrefl x), if_neg (lt_irrefl x)] at hbc ⊢
            exact ih ys zs hab hbc
          · rw [if_neg (asymm hxz), if_pos hxz] at hbc
            exact Bool.noConfusion hbc
        · rw [if_neg (asymm hxy), if_pos hxy] at hab
          exact Bool.noConfusion hab

theorem charListLe_antisymm :
    ∀ a b : List Char, charListLe a b = true → charListLe b a = true → a = b := by
  intro a
  induction a with
  | nil =>
    intro b _ hba
    cases b with
    | nil => rfl
    | cons d ds => simp [charListLe] at hba
  | cons c cs ih =>
    intro b hab hba
    cases b with
    | nil => simp [charListLe] at hab
    | cons d ds =>
      simp only [charListLe] at hab hba
      rcases lt_trichotomy c d with h | h | h
      · rw [if_neg (asymm h), if_pos h] at hba
        exact Bool.noConfusion hba
      · subst h
        rw [if_neg (lt_irrefl c), if_neg (lt_irrefl c)] at hab hba
        rw [ih ds hab hba]
      · rw [if_neg (asymm h), if_pos h] at hab
        exact Bool.noConfusion hab

theorem strLe_total (a b : String) : strLe a b = true ∨ strLe b a = true :=
  charListLe_total a.data b.data

theorem strLe_trans {a b c : String} (h1 : strLe a b = true) (h2 : strLe b c = true) :
    strLe a c = true :=
  charListLe_trans a.data b.data c.data h1 h2

theorem strLe_antisymm {a b : String} (h1 : strLe a b = true) (h2 : strLe b a = true) :
    a = b := by
  cases a with
  | mk da =>
    cases b with
    | mk db =>
      have : da = db := charListLe_antisymm da db h1 h2
      rw [this]

instance : IsTotal Item itemLe := ⟨fun a b => strLe_total a.1 b.1⟩

instance : IsTrans Item itemLe := ⟨fun _ _ _ h1 h2 => strLe_trans h1 h2⟩

/-- Strict version of `itemLe`, used to show sorted-with-distinct-names
lists are unique up to permutation. -/
def itemLt (a b : Item) : Prop := strLe a.1 b.1 = true ∧ a.1 ≠ b.1

instance : IsAntisymm Item itemLt :=
  ⟨fun _ _ h1 h2 => absurd (strLe_antisymm h1.1 h2.1) h1.2⟩

mutual

/-- Size of a value's attribute tree (termination fuel for the walker). -/
def pySize : PyObj → Nat
  | .mk _ _ _ attrs => 1 + attrsSize attrs

/-- Size of an attribute list. -/
def attrsSize : List PyAttr → Nat
  | [] => 0
  | a :: rest => 1 + pySize a.2.2 + attrsSize rest

end

/-- The recursive walker `_dump_object_stubs` / `write_object_stub`,
with an explicit fuel for termination; `writeObjectStub` instantiates
the fuel with `pySize o`, which `writeObjectStub_eq` proves sufficient,
so the zero-fuel branch is never reached.  Faithful to the source:
skip when `object_expr in problematic` (Python `==` against strings),
enumerate attributes, sort by name, skip dunder names, then dispatch on
the textual type tag; recursion into a `<class 'type'>` member happens
only when `indent == ""`. -/
def walkFuel : Nat → List String → PyObj → String → String → List Frag
  | 0, _, _, _, _ => []
  | Nat.succ fuel, problematic, o, objName, indent =>
    if pyInList o problematic then []
    else
      ((sortItems (getObjAttributes o).1).map (fun it =>
        if pyStartsWith it.1 "__" then []
        else if it.2.2.1 ∈ callableTags then
          [Frag.fdefn indent it.1]
        else if it.2.2.1 ∈ literalTags then
          [Frag.fassign indent it.1 it.2.1]
        else if it.2.2.1 = typeTag ∧ indent = "" then
          Frag.fclass indent it.1 ::
            walkFuel fuel problematic it.2.2.2 (objName ++ "." ++ it.1) (indent ++ "    ")
        else [Frag.fnone indent it.1])).flatten

/-- `_dump_object_stubs(fp, object_expr, obj_name, indent)` /
`write_object_stub(fp, object_expr, obj_name, indent)`: the list of
writes performed on `fp`, in order. -/
def writeObjectStub (problematic : List String) (o : PyObj) (objName indent : String) :
    List Frag :=
  walkFuel (pySize o) problematic o objName indent

/-- The writes one sorted member produces (the body of the walker's
`for` loop for one `(name, rep, typ, obj)` tuple). -/
def memberFrags (problematic : List String) (objName indent : String) (it : Item) :
    List Frag :=
  if pyStartsWith it.1 "__" then []
  else if it.2.2.1 ∈ callableTags then
    [Frag.fdefn indent it.1]
  else if it.2.2.1 ∈ literalTags then
    [Frag.fassign indent it.1 it.2.1]
  else if it.2.2.1 = typeTag ∧ indent = "" then
    Frag.fclass indent it.1 ::
      writeObjectStub problematic it.2.2.2 (objName ++ "." ++ it.1) (indent ++ "    ")
  else [Frag.fnone indent it.1]

theorem pySize_pos (o : PyObj) : 1 ≤ pySize o := by
  cases o with
  | mk r t s attrs => simp [pySize]

theorem attrsSize_lt_of_mem {a : PyAttr} {attrs : List PyAttr} (h : a ∈ attrs) :
    pySize a.2.2 < 1 + attrsSize attrs := by
  induction attrs with
  | nil => cases h
  | cons b rest ih =>
    rcases List.mem_cons.mp h with h | h
    · subst h
      simp only [attrsSize]
      omega
    · have := ih h
      simp only [attrsSize]
      omega

theorem mem_sortItems {it : Item} {l : List Item} : it ∈ sortItems l ↔ it ∈ l :=
  (List.perm_insertionSort itemLe l).mem_iff

/-- Every member the walker iterates over is a strictly smaller part of
the walked object. -/
theorem child_size_lt {o : PyObj} {it : Item}
    (h : it ∈ sortItems (getObjAttributes o).1) : pySize it.2.2.2 < pySize o := by
  have hmem : it ∈ (getObjAttributes o).1 := mem_sortItems.mp h
  rcases List.mem_filterMap.mp hmem with ⟨a, ha, hit⟩
  have hchild : it.2.2.2 = a.2.2 := by
    cases he : a.2.1 with
    | none =>
      simp only [attrItem, he] at hit
      injection hit with hit
      rw [← hit]
    | some e =>
      simp only [attrItem, he] at hit
      exact Option.noConfusion hit
  cases o with
  | mk r t s attrs =>
    have : pySize a.2.2 < 1 + attrsSize attrs := attrsSize_lt_of_mem ha
    simp only [pySize, hchild]
    exact this

/-- The fuel argument is irrelevant as soon as it is at least the size
of the walked object. -/
theorem walkFuel_congr :
    ∀ (f1 f2 : Nat) (prob : List String) (o : PyObj) (nm ind : String),
      pySize o ≤ f1 → pySize o ≤ f2 →
      walkFuel f1 prob o nm ind = walkFuel f2 prob o nm ind := by
  intro f1
  induction f1 with
  | zero =>
    intro f2 prob o nm ind h1 _
    exact absurd h1 (by have := pySize_pos o; omega)
  | succ f1 ih =>
    intro f2 prob o nm ind h1 h2
    cases f2 with
    | zero => exact absurd h2 (by have := pySize_pos o; omega)
    | succ f2 =>
      simp only [walkFuel]
      by_cases hp : pyInList o prob = true
      · simp [hp]
      · simp only [hp, if_false]
        apply congrArg List.flatten
        apply List.map_congr_left
        intro it hmem
        have hlt : pySize it.2.2.2 < pySize o := child_size_lt hmem
        split_ifs with hd hc hl hty
        · rfl
        · rfl
        · rfl
        · congr 1
          exact ih f2 prob it.2.2.2 (nm ++ "." ++ it.1) (ind ++ "    ")
            (by omega) (by omega)
        · rfl

/-- The faithful recursion equation of `_dump_object_stubs` /
`write_object_stub`: skip a problematic (string-compared) object,
otherwise emit, for each successfully resolved member in name-sorted
order, the fragments of its dispatch branch. -/
theorem writeObjectStub_eq (prob : List String) (o : PyObj) (nm ind : String) :
    writeObjectStub prob o nm ind =
      if pyInList o prob then []
      else ((sortItems (getObjAttributes o).1).map (memberFrags prob nm ind)).flatten := by
  unfold writeObjectStub
  obtain ⟨k, hk⟩ : ∃ k, pySize o = k + 1 := ⟨pySize o - 1, by have := pySize_pos o; omega⟩
  rw [hk]
  simp only [walkFuel]
  by_cases hp : pyInList o prob = true
  · simp [hp]
  · simp only [hp, if_false]
    apply congrArg List.flatten
    apply List.map_congr_left
    intro it hmem
    have hlt : pySize it.2.2.2 < pySize o := child_size_lt hmem
    simp only [memberFrags, writeObjectStub]
    split_ifs with hd hc hl hty
    · rfl
    · rfl
    · rfl
    · congr 1
      exact walkFuel_congr k (pySize it.2.2.2) prob it.2.2.2 (nm ++ "." ++ it.1)
        (ind ++ "    ") (by omega) (by omega)
    · rfl

/-- The stub categories of the specification. -/
inductive Category : Type where
  | Callable
  | PrimitiveLiteral
  | CompositeType
  | Opaque
deriving DecidableEq

/-- The classifier implicit in the walker's dispatch: decide the
category from the textual type tag alone, `Opaque` being the final
`else` branch. -/
def classify (typ : String) : Category :=
  if typ ∈ callableTags then Category.Callable
  else if typ ∈ literalTags then Category.PrimitiveLiteral
  else if typ = typeTag then Category.CompositeType
  else Category.Opaque

/-! ## Module lifecycle -/

/-- Process-wide state the lifecycle manager touches: the interpreter's
module cache (`sys.modules`), the files written so far (path and the
ordered list of chunks written to it), the `_report` entries (module
names), and how many times `gc.collect()` ran after a stub. -/
structure SysState where
  sysModules : List String
  files : List (String × List String)
  report : List String
  gcRuns : Nat
deriving DecidableEq

/-- The fixed allow-list of modules never unloaded
(`["os", "sys", "logging", "gc"]`). -/
def allowList : List String := ["os", "sys", "logging", "gc"]

/-- `self.problematic` as configured in both variants. -/
def problematicDefault : List String :=
  ["upysh", "webrepl_setup", "http_client", "http_client_ssl", "http_server",
   "http_server_ssl"]

/-- `self.excluded` as configured in both variants. -/
def excludedDefault : List String := ["webrepl", "_webrepl", "webrepl_setup"]

/-- The header both variants write at the top of a stub file (the
firmware id, `os.uname()` text and stubber version are run parameters). -/
def stubHeader (moduleName fwid uname ver : String) : String :=
  "\"\"\"\nModule: '" ++ moduleName ++ "' on " ++ fwid ++ "\n\"\"\"\n# MCU: " ++
    uname ++ "\n# Stubber: " ++ ver ++ "\n"

/-- `__import__` caches the imported module in `sys.modules` (no
duplicate entry when it is already cached). -/
def insertModule (name : String) (mods : List String) : List String :=
  if name ∈ mods then mods else mods ++ [name]

/-- `Stubber.dump_module_stub(module_name, file_name)` of
`createstubs.py`: skip internal names (except `_thread`), problematic
names, and nested names (`'/'`); import via the environment `env`
(`none` models `ImportError`); on success write the header, then, when
the module is not excluded, the walker's fragments, and append a report
entry; afterwards `del new_module` (the local reference only — the
module cache is untouched) and `gc.collect()` unless the name is
allow-listed. -/
def dump_module_stub (env : String → Option PyObj) (problematic excluded : List String)
    (fwid uname : String) (module_name file_name : String) (st : SysState) : SysState :=
  if pyStartsWith module_name "_" ∧ module_name ≠ "_thread" then st
  else if module_name ∈ problematic then st
  else if hasChar module_name '/' then st
  else
    match env module_name with
    | none => st
    | some m =>
      let st1 : SysState := { st with sysModules := insertModule module_name st.sysModules }
      let content : List String :=
        if module_name ∉ excluded then
          stubHeader module_name fwid uname "1.0.1" ::
            (writeObjectStub problematic m module_name "").map Frag.render
        else [stubHeader module_name fwid uname "1.0.1"]
      let st2 : SysState :=
        { st1 with
          files := st1.files ++ [(file_name, content)],
          report :=
            if module_name ∉ excluded then st1.report ++ [module_name] else st1.report }
      if module_name ∉ allowList then { st2 with gcRuns := st2.gcRuns + 1 } else st2

/-- `Stubber.create_module_stub(module_name, file_name)` of
`createstubs_min.py`: skip internal names (except `_thread`) and
problematic names; a nested name is re-written with dots and is skipped
before import when the governor flag `include_nested` is off; import via
`env`; on success write header plus the walker's fragments and a report
entry; unless allow-listed, delete the local reference AND
`del sys.modules[module_name]`, then `gc.collect()`. -/
def create_module_stub (env : String → Option PyObj) (problematic : List String)
    (include_nested : Bool) (fwid uname : String) (module_name file_name : String)
    (st : SysState) : SysState :=
  if pyStartsWith module_name "_" ∧ module_name ≠ "_thread" then st
  else if module_name ∈ problematic then st
  else
    let module_name2 := if hasChar module_name '/' then dotted module_name else module_name
    if hasChar module_name '/' ∧ include_nested = false then st
    else
      match env module_name2 with
      | none => st
      | some m =>
        let st1 : SysState :=
          { st with sysModules := insertModule module_name2 st.sysModules }
        let content : List String :=
          stubHeader module_name2 fwid uname "1.2.0" ::
            (writeObjectStub problematic m module_name2 "").map Frag.render
        let st2 : SysState :=
          { st1 with
            files := st1.files ++ [(file_name, content)],
            report := st1.report ++ [module_name2] }
        if module_name2 ∉ allowList then
          { st2 with
            sysModules := st2.sysModules.erase module_name2,
            gcRuns := st2.gcRuns + 1 }
        else st2

/-- `"{}/{}.py".format(self.path, module_name.replace(".", "/"))`. -/
def stubFileName (path m : String) : String := path ++ "/" ++ slashed m ++ ".py"

/-- The catalog reorder at the top of `create_all_stubs`: nested names
first, then the rest. -/
def nestedFirst (mods : List String) : List String :=
  mods.filter (fun m => hasChar m '/') ++ mods.filter (fun m => !(hasChar m '/'))

/-- The body of `create_all_stubs`' loop over the (already reordered)
catalog.  `memFree i` is the fresh `gc.mem_free()` reading of iteration
`i`; the governor flag is re-queried only while it is still on and
latches off once a reading is at or below 3200.  Excluded, problematic
and internal names are skipped in the loop itself. -/
def create_all_stubs_loop (env : String → Option PyObj)
    (problematic excluded : List String) (memFree : Nat → Nat)
    (path fwid uname : String) :
    List String → Nat → Bool → SysState → SysState
  | [], _, _, st => st
  | m :: rest, i, inc, st =>
    let inc2 := if inc then decide (memFree i > 3200) else inc
    let st2 :=
      if pyStartsWith m "_" ∧ m ≠ "_thread" then st
      else if m ∈ problematic then st
      else if m ∈ excluded then st
      else create_module_stub env problematic inc2 fwid uname m (stubFileName path m) st
    create_all_stubs_loop env problematic excluded memFree path fwid uname rest (i + 1)
      inc2 st2

/-- `Stubber.create_all_stubs()` of `createstubs_min.py`: reorder the
catalog nested-first and run the loop; `inc0` is the initial
`include_nested` computed in `__init__`. -/
def create_all_stubs (env : String → Option PyObj) (problematic excluded : List String)
    (memFree : Nat → Nat) (path fwid uname : String) (mods : List String) (inc0 : Bool)
    (st : SysState) : SysState :=
  create_all_stubs_loop env problematic excluded memFree path fwid uname
    (nestedFirst mods) 0 inc0 st

/-- `Stubber.add_modules(modules)`:
`self.modules = sorted(set(self.modules) | set(modules))` — the sorted,
duplicate-free union of the current catalog and the new names. -/
def add_modules (cur new : List String) : List String :=
  ((cur ++ new).dedup).insertionSort (fun a b => strLe a b = true)

/-! ## Claim theorems -/

/-- C2: classification is total: every textual type tag yields exactly
one of the four categories, the dispatch of the walker realises exactly
the classified category's emission (never an error path), and any tag
outside the recognised callable/literal/type tags falls through to
`Opaque`, i.e. `name = None`. -/
theorem typeTag_not_callableTag : typeTag ∉ callableTags := by decide

theorem typeTag_not_literalTag : typeTag ∉ literalTags := by decide

theorem C2_classification_total (prob : List String) (nm ind name rep typ : String)
    (obj : PyObj) (h : pyStartsWith name "__" = false) :
    (∃! c : Category, classify typ = c) ∧
    (classify typ = Category.Callable →
      memberFrags prob nm ind (name, rep, typ, obj) = [Frag.fdefn ind name]) ∧
    (classify typ = Category.PrimitiveLiteral →
      memberFrags prob nm ind (name, rep, typ, obj) = [Frag.fassign ind name rep]) ∧
    (classify typ = Category.CompositeType →
      memberFrags prob nm ind (name, rep, typ, obj) =
        if ind = "" then
          Frag.fclass ind name ::
            writeObjectStub prob obj (nm ++ "." ++ name) (ind ++ "    ")
        else [Frag.fnone ind name]) ∧
    (classify typ = Category.Opaque →
      memberFrags prob nm ind (name, rep, typ, obj) = [Frag.fnone ind name]) ∧
    (typ ∉ callableTags → typ ∉ literalTags → typ ≠ typeTag →
      classify typ = Category.Opaque) := by
  refine ⟨⟨classify typ, rfl, fun c hc => hc.symm⟩, ?_, ?_, ?_, ?_, ?_⟩
  · intro h1
    by_cases hc : typ ∈ callableTags
    · simp [memberFrags, h, hc]
    · by_cases hl : typ ∈ literalTags
      · simp [classify, hc, hl] at h1
      · by_cases hty : typ = typeTag
        · simp [classify, hc, hl, hty, typeTag_not_callableTag, typeTag_not_literalTag] at h1
        · simp [classify, hc, hl, hty, typeTag_not_callableTag, typeTag_not_literalTag] at h1
  · intro h1
    by_cases hc : typ ∈ callableTags
    · simp [classify, hc] at h1
    · by_cases hl : typ ∈ literalTags
      · simp [memberFrags, h, hc, hl]
      · by_cases hty : typ = typeTag
        · simp [classify, hc, hl, hty, typeTag_not_callableTag, typeTag_not_literalTag] at h1
        · simp [classify, hc, hl, hty, typeTag_not_callableTag, typeTag_not_literalTag] at h1
  · intro h1
    by_cases hc : typ ∈ callableTags
    · simp [classify, hc] at h1
    · by_cases hl : typ ∈ literalTags
      · simp [classify, hc, hl] at h1
      · by_cases hty : typ = typeTag
        · by_cases hind : ind = ""
          · simp [memberFrags, h, hc, hl, hty, hind, typeTag_not_callableTag,
              typeTag_not_literalTag]
          · simp [memberFrags, h, hc, hl, hty, hind, typeTag_not_callableTag,
              typeTag_not_literalTag]
        · simp [classify, hc, hl, hty, typeTag_not_callableTag, typeTag_not_literalTag] at h1
  · intro h1
    by_cases hc : typ ∈ callableTags
    · simp [classify, hc] at h1
    · by_cases hl : typ ∈ literalTags
      · simp [classify, hc, hl] at h1
      · by_cases hty : typ = typeTag
        · simp [classify, hc, hl, hty, typeTag_not_callableTag, typeTag_not_literalTag] at h1
        · simp [memberFrags, h, hc, hl, hty]
  · intro h1 h2 h3
    simp [classify, h1, h2, h3]

/-- Witness for C2 at a concrete unrecognised tag. -/
theorem C2_classification_total_witness :
    pyStartsWith "a" "__" = false ∧
    ((∃! c : Category, classify "<class 'dict'>" = c) ∧
    (classify "<class 'dict'>" = Category.Callable →
      memberFrags [] "m" "" ("a", "r", "<class 'dict'>", PyObj.mk "r" "<class 'dict'>" none []) =
        [Frag.fdefn "" "a"]) ∧
    (classify "<class 'dict'>" = Category.PrimitiveLiteral →
      memberFrags [] "m" "" ("a", "r", "<class 'dict'>", PyObj.mk "r" "<class 'dict'>" none []) =
        [Frag.fassign "" "a" "r"]) ∧
    (classify "<class 'dict'>" = Category.CompositeType →
      memberFrags [] "m" "" ("a", "r", "<class 'dict'>", PyObj.mk "r" "<class 'dict'>" none []) =
        if ("" : String) = "" then
          Frag.fclass "" "a" ::
            writeObjectStub [] (PyObj.mk "r" "<class 'dict'>" none []) ("m" ++ "." ++ "a")
              ("" ++ "    ")
        else [Frag.fnone "" "a"]) ∧
    (classify "<class 'dict'>" = Category.Opaque →
      memberFrags [] "m" "" ("a", "r", "<class 'dict'>", PyObj.mk "r" "<class 'dict'>" none []) =
        [Frag.fnone "" "a"]) ∧
    ("<class 'dict'>" ∉ callableTags → "<class 'dict'>" ∉ literalTags →
      "<class 'dict'>" ≠ typeTag → classify "<class 'dict'>" = Category.Opaque)) :=
  ⟨by decide,
   C2_classification_total [] "m" "" "a" "r" "<class 'dict'>"
     (PyObj.mk "r" "<class 'dict'>" none []) (by decide)⟩

/-- C5: when the import of a module name fails (the module is absent on
this firmware), both variants' per-module stub operation returns with
the state unchanged: no output file is created, nothing else happens. -/
theorem C5_import_failure_no_output (env : String → Option PyObj)
    (prob excl : List String) (fwid uname name fn : String) (st : SysState)
    (h1 : env name = none) (h2 : env (dotted name) = none) :
    dump_module_stub env prob excl fwid uname name fn st = st ∧
    ∀ inc : Bool, create_module_stub env prob inc fwid uname name fn st = st := by
  constructor
  · simp only [dump_module_stub]
    split_ifs <;> simp [h1]
  · intro inc
    simp only [create_module_stub]
    split_ifs <;> simp_all

/-- Witness for C5: a name absent from a concrete environment. -/
theorem C5_import_failure_no_output_witness :
    ((fun n => if n = "json" then some (PyObj.mk "<module 'json'>" "<class 'module'>" none [])
        else none) "does_not_exist" = none) ∧
    (dump_module_stub
        (fun n => if n = "json" then some (PyObj.mk "<module 'json'>" "<class 'module'>" none [])
          else none) problematicDefault excludedDefault "fw" "un" "does_not_exist"
        "stubs/does_not_exist.py" ⟨[], [], [], 0⟩ = ⟨[], [], [], 0⟩ ∧
      ∀ inc : Bool, create_module_stub
        (fun n => if n = "json" then some (PyObj.mk "<module 'json'>" "<class 'module'>" none [])
          else none) problematicDefault inc "fw" "un" "does_not_exist"
        "stubs/does_not_exist.py" ⟨[], [], [], 0⟩ = ⟨[], [], [], 0⟩) :=
  ⟨rfl,
   C5_import_failure_no_output
     (fun n => if n = "json" then some (PyObj.mk "<module 'json'>" "<class 'module'>" none [])
       else none) problematicDefault excludedDefault "fw" "un" "does_not_exist"
     "stubs/does_not_exist.py" ⟨[], [], [], 0⟩ rfl rfl⟩

/-- C8 (code bug): the walker's problematic guard compares the walked
OBJECT itself (`object_expr in self.problematic`) against the list of
name strings, not the object's name `obj_name`.  A module object whose
name `"upysh"` is on the block-list is therefore walked and emits
fragments, while the guard fires only for a value that is itself the
string `"upysh"`. -/
theorem C8_problematic_guard_checks_object_not_name :
    writeObjectStub problematicDefault
        (PyObj.mk "<module 'upysh'>" "<class 'module'>" none
          [("man", none, PyObj.mk "<function man>" "<class 'function'>" none [])])
        "upysh" "" = [Frag.fdefn "" "man"] ∧
    writeObjectStub problematicDefault
        (PyObj.mk "'upysh'" "<class 'str'>" (some "upysh") []) "s" "" = [] := by
  decide

/-- At any non-top indentation the walker emits no class header at all:
the composite branch (the only recursive one) is guarded by
`indent == ""`. -/
theorem walk_no_class_of_indent_ne (prob : List String) (o : PyObj) (nm ind : String)
    (h : ind ≠ "") : ∀ f ∈ writeObjectStub prob o nm ind, f.isClass = false := by
  intro f hf
  rw [writeObjectStub_eq] at hf
  by_cases hp : pyInList o prob = true
  · simp [hp] at hf
  · simp only [hp, if_false] at hf
    rcases List.mem_flatten.mp hf with ⟨s, hs, hfs⟩
    rcases List.mem_map.mp hs with ⟨it, hit, heq⟩
    subst heq
    unfold memberFrags at hfs
    split_ifs at hfs with hd hc hl hty
    · cases hfs
    · rw [List.mem_singleton] at hfs
      subst hfs
      rfl
    · rw [List.mem_singleton] at hfs
      subst hfs
      rfl
    · exact absurd hty.2 h
    · rw [List.mem_singleton] at hfs
      subst hfs
      rfl

/-- In a top-level walk every class header fragment is written at the
top indentation: the single recursive call runs at indentation
`"    "`, where no class header can be emitted. -/
theorem walk_top_class_indent (prob : List String) (o : PyObj) (nm : String) :
    ∀ f ∈ writeObjectStub prob o nm "", f.isClass = true → f.indentOf = "" := by
  intro f hf hcl
  rw [writeObjectStub_eq] at hf
  by_cases hp : pyInList o prob = true
  · simp [hp] at hf
  · simp only [hp, if_false] at hf
    rcases List.mem_flatten.mp hf with ⟨s, hs, hfs⟩
    rcases List.mem_map.mp hs with ⟨it, hit, heq⟩
    subst heq
    unfold memberFrags at hfs
    split_ifs at hfs with hd hc hl hty
    · cases hfs
    · rw [List.mem_singleton] at hfs
      subst hfs
      rfl
    · rw [List.mem_singleton] at hfs
      subst hfs
      rfl
    · rcases List.mem_cons.mp hfs with heq2 | hrec
      · subst heq2
        rfl
      · have hnc := walk_no_class_of_indent_ne prob it.2.2.2 (nm ++ "." ++ it.1)
          ("" ++ "    ") (by decide) f hrec
        rw [hcl] at hnc
        exact Bool.noConfusion hnc
    · rw [List.mem_singleton] at hfs
      subst hfs
      rfl

/-- C1: recursion into a CompositeType member happens only at the top
indentation.  At any deeper indentation (a) the walker emits no class
header at all, and (b) a member whose tag is `<class 'type'>` degrades
to the Opaque rule `name = None`; consequently (c) in a top-level walk
every class header sits at the top indentation — the stub never nests
classes more than one level. -/
theorem C1_composite_recursion_capped (prob : List String) (o : PyObj) (nm ind : String)
    (h : ind ≠ "") :
    (∀ f ∈ writeObjectStub prob o nm ind, f.isClass = false) ∧
    (∀ name rep typ obj, pyStartsWith name "__" = false → typ = typeTag →
      memberFrags prob nm ind (name, rep, typ, obj) = [Frag.fnone ind name]) ∧
    (∀ f ∈ writeObjectStub prob o nm "", f.isClass = true → f.indentOf = "") := by
  refine ⟨walk_no_class_of_indent_ne prob o nm ind h, ?_, walk_top_class_indent prob o nm⟩
  intro name rep typ obj hnd hty
  simp [memberFrags, hnd, hty, h, typeTag_not_callableTag, typeTag_not_literalTag]

/-- A synthetic module with a nested class inside a class, used to
witness the depth cap. -/
def sampleNested : PyObj :=
  PyObj.mk "<module 'm'>" "<class 'module'>" none
    [("C", none, PyObj.mk "<class 'C'>" "<class 'type'>" none
        [("D", none, PyObj.mk "<class 'D'>" "<class 'type'>" none
            [("z", none, PyObj.mk "3" "<class 'int'>" none [])]),
         ("n", none, PyObj.mk "1" "<class 'int'>" none [])])]

/-- Witness for C1 at the first recursion level (`indent == "    "`). -/
theorem C1_composite_recursion_capped_witness :
    ("    " : String) ≠ "" ∧
    ((∀ f ∈ writeObjectStub [] sampleNested "m" "    ", f.isClass = false) ∧
    (∀ name rep typ obj, pyStartsWith name "__" = false → typ = typeTag →
      memberFrags [] "m" "    " (name, rep, typ, obj) = [Frag.fnone "    " name]) ∧
    (∀ f ∈ writeObjectStub [] sampleNested "m" "", f.isClass = true → f.indentOf = "")) :=
  ⟨by decide, C1_composite_recursion_capped [] sampleNested "m" "    " (by decide)⟩

/-- The names of the successfully resolved members form a sublist of the
enumerated attribute names. -/
theorem filterMap_attrItem_fst_sublist (attrs : List PyAttr) :
    ((attrs.filterMap attrItem).map (fun it => it.1)).Sublist
      (attrs.map (fun a => a.1)) := by
  induction attrs with
  | nil => simp
  | cons a rest ih =>
    cases he : a.2.1 with
    | none =>
      simp only [List.filterMap_cons, he, attrItem, List.map_cons]
      exact ih.cons₂ _
    | some e =>
      simp only [List.filterMap_cons, he, attrItem, List.map_cons]
      exact ih.cons _

theorem items_fst_nodup {attrs : List PyAttr}
    (hn : (attrs.map (fun a => a.1)).Nodup) :
    ((attrs.filterMap attrItem).map (fun it => it.1)).Nodup :=
  List.Nodup.sublist (filterMap_attrItem_fst_sublist attrs) hn

/-- Two permuted lists, both sorted by a duplicate-free string key, are
equal. -/
theorem eq_of_perm_of_sorted_key {α : Type} (key : α → String) (l1 l2 : List α)
    (hp : l1.Perm l2)
    (hs1 : List.Pairwise (fun a b => strLe (key a) (key b) = true) l1)
    (hs2 : List.Pairwise (fun a b => strLe (key a) (key b) = true) l2)
    (hn : (l1.map key).Nodup) : l1 = l2 := by
  letI : IsAntisymm α (fun a b => strLe (key a) (key b) = true ∧ key a ≠ key b) :=
    ⟨fun a b h1 h2 => absurd (strLe_antisymm h1.1 h2.1) h1.2⟩
  have hn2 : (l2.map key).Nodup := ((hp.map key).nodup_iff).mp hn
  have hne1 : List.Pairwise (fun a b => key a ≠ key b) l1 := List.pairwise_map.mp hn
  have hne2 : List.Pairwise (fun a b => key a ≠ key b) l2 := List.pairwise_map.mp hn2
  exact List.eq_of_perm_of_sorted hp (hs1.and hne1) (hs2.and hne2)

theorem sortItems_sorted (l : List Item) : List.Pairwise itemLe (sortItems l) :=
  List.sorted_insertionSort itemLe l

/-- Sorting two permutations of the same duplicate-name-free member list
yields the same list. -/
theorem sortItems_eq_of_perm {l1 l2 : List Item} (hp : l1.Perm l2)
    (hn : (l1.map (fun it => it.1)).Nodup) : sortItems l1 = sortItems l2 := by
  apply eq_of_perm_of_sorted_key (fun it => it.1)
  · exact (List.perm_insertionSort itemLe l1).trans
      (hp.trans (List.perm_insertionSort itemLe l2).symm)
  · exact sortItems_sorted l1
  · exact sortItems_sorted l2
  · exact (((List.perm_insertionSort itemLe l1).map (fun it => it.1)).nodup_iff).mpr hn

/-- C3: fragment emission is deterministic in the enumeration order:
walking the same member set presented in any two enumeration orders
yields identical output, and the processed member order is ascending in
lexical name order (`itemLe` compares names with the code-point
lexicographic `strLe`). -/
theorem C3_walk_order_deterministic (prob : List String) (nm ind rep typ : String)
    (sv : Option String) (attrs1 attrs2 : List PyAttr) (hp : attrs1.Perm attrs2)
    (hn : (attrs1.map (fun a => a.1)).Nodup) :
    writeObjectStub prob (PyObj.mk rep typ sv attrs1) nm ind =
      writeObjectStub prob (PyObj.mk rep typ sv attrs2) nm ind ∧
    List.Pairwise itemLe (sortItems (getObjAttributes (PyObj.mk rep typ sv attrs1)).1) := by
  constructor
  · rw [writeObjectStub_eq, writeObjectStub_eq]
    have hitems : (getObjAttributes (PyObj.mk rep typ sv attrs1)).1.Perm
        (getObjAttributes (PyObj.mk rep typ sv attrs2)).1 := hp.filterMap attrItem
    have hnn : ((getObjAttributes (PyObj.mk rep typ sv attrs1)).1.map
        (fun it => it.1)).Nodup := items_fst_nodup hn
    rw [sortItems_eq_of_perm hitems hnn]
    rfl
  · exact sortItems_sorted _

/-- Witness for C3: the same two members in swapped enumeration order. -/
theorem C3_walk_order_deterministic_witness :
    ([(("b", none, PyObj.mk "2" "<class 'int'>" none []) : PyAttr),
      ("a", none, PyObj.mk "1" "<class 'int'>" none [])].Perm
      [("a", none, PyObj.mk "1" "<class 'int'>" none []),
       ("b", none, PyObj.mk "2" "<class 'int'>" none [])]) ∧
    ([(("b", none, PyObj.mk "2" "<class 'int'>" none []) : PyAttr),
      ("a", none, PyObj.mk "1" "<class 'int'>" none [])].map (fun a => a.1)).Nodup ∧
    (writeObjectStub [] (PyObj.mk "<module 'm'>" "<class 'module'>" none
        [("b", none, PyObj.mk "2" "<class 'int'>" none []),
         ("a", none, PyObj.mk "1" "<class 'int'>" none [])]) "m" "" =
      writeObjectStub [] (PyObj.mk "<module 'm'>" "<class 'module'>" none
        [("a", none, PyObj.mk "1" "<class 'int'>" none []),
         ("b", none, PyObj.mk "2" "<class 'int'>" none [])]) "m" "" ∧
    List.Pairwise itemLe (sortItems (getObjAttributes (PyObj.mk "<module 'm'>"
        "<class 'module'>" none
        [("b", none, PyObj.mk "2" "<class 'int'>" none []),
         ("a", none, PyObj.mk "1" "<class 'int'>" none [])])).1)) :=
  ⟨List.Perm.swap ("a", none, PyObj.mk "1" "<class 'int'>" none [])
      ("b", none, PyObj.mk "2" "<class 'int'>" none []) [],
   by decide,
   C3_walk_order_deterministic [] "m" "" "<module 'm'>" "<class 'module'>" none
     [("b", none, PyObj.mk "2" "<class 'int'>" none []),
      ("a", none, PyObj.mk "1" "<class 'int'>" none [])]
     [("a", none, PyObj.mk "1" "<class 'int'>" none []),
      ("b", none, PyObj.mk "2" "<class 'int'>" none [])]
     (List.Perm.swap ("a", none, PyObj.mk "1" "<class 'int'>" none [])
       ("b", none, PyObj.mk "2" "<class 'int'>" none []) [])
     (by decide)⟩

/-- C4: a failing attribute lookup is captured in the per-object error
list and the walk continues: every readable attribute still lands in the
member list, every failing one contributes exactly its error message,
and a readable non-dunder member's fragments do appear in the emitted
stub of the object. -/
theorem C4_partial_failure (prob : List String) (nm ind rep typ : String)
    (sv : Option String) (attrs : List PyAttr) (name : String) (v : PyObj)
    (hread : (name, none, v) ∈ attrs) (hnd : pyStartsWith name "__" = false)
    (hguard : pyInList (PyObj.mk rep typ sv attrs) prob = false) :
    ((name, v.rep, v.typ, v) ∈ (getObjAttributes (PyObj.mk rep typ sv attrs)).1) ∧
    (∀ nm2 e v2, ((nm2, some e, v2) : PyAttr) ∈ attrs →
      attrErrText nm2 rep e ∈ (getObjAttributes (PyObj.mk rep typ sv attrs)).2) ∧
    memberFrags prob nm ind (name, v.rep, v.typ, v) ≠ [] ∧
    (∀ f ∈ memberFrags prob nm ind (name, v.rep, v.typ, v),
      f ∈ writeObjectStub prob (PyObj.mk rep typ sv attrs) nm ind) := by
  have hmem : (name, v.rep, v.typ, v) ∈ (getObjAttributes (PyObj.mk rep typ sv attrs)).1 :=
    List.mem_filterMap.mpr ⟨(name, none, v), hread, rfl⟩
  refine ⟨hmem, ?_, ?_, ?_⟩
  · intro nm2 e v2 hf
    exact List.mem_filterMap.mpr ⟨(nm2, some e, v2), hf, rfl⟩
  · simp only [memberFrags, hnd, Bool.false_eq_true, if_false]
    split_ifs <;> simp
  · intro f hf
    rw [writeObjectStub_eq]
    simp only [hguard, Bool.false_eq_true, if_false]
    exact List.mem_flatten.mpr
      ⟨memberFrags prob nm ind (name, v.rep, v.typ, v),
       List.mem_map_of_mem _ (mem_sortItems.mpr hmem), hf⟩

/-- Witness for C4: one readable and one raising attribute side by
side. -/
theorem C4_partial_failure_witness :
    ((("good", none, PyObj.mk "7" "<class 'int'>" none []) : PyAttr) ∈
      [(("bad", some "boom", PyObj.mk "?" "?" none []) : PyAttr),
       ("good", none, PyObj.mk "7" "<class 'int'>" none [])]) ∧
    pyStartsWith "good" "__" = false ∧
    pyInList (PyObj.mk "<module 'm'>" "<class 'module'>" none
      [("bad", some "boom", PyObj.mk "?" "?" none []),
       ("good", none, PyObj.mk "7" "<class 'int'>" none [])]) [] = false ∧
    (((("good", (PyObj.mk "7" "<class 'int'>" none []).rep,
        (PyObj.mk "7" "<class 'int'>" none []).typ,
        PyObj.mk "7" "<class 'int'>" none []) : Item) ∈
      (getObjAttributes (PyObj.mk "<module 'm'>" "<class 'module'>" none
        [("bad", some "boom", PyObj.mk "?" "?" none []),
         ("good", none, PyObj.mk "7" "<class 'int'>" none [])])).1) ∧
    (∀ nm2 e v2, ((nm2, some e, v2) : PyAttr) ∈
        [(("bad", some "boom", PyObj.mk "?" "?" none []) : PyAttr),
         ("good", none, PyObj.mk "7" "<class 'int'>" none [])] →
      attrErrText nm2 "<module 'm'>" e ∈
        (getObjAttributes (PyObj.mk "<module 'm'>" "<class 'module'>" none
          [("bad", some "boom", PyObj.mk "?" "?" none []),
           ("good", none, PyObj.mk "7" "<class 'int'>" none [])])).2) ∧
    memberFrags [] "m" "" ("good", (PyObj.mk "7" "<class 'int'>" none []).rep,
      (PyObj.mk "7" "<class 'int'>" none []).typ,
      PyObj.mk "7" "<class 'int'>" none []) ≠ [] ∧
    (∀ f ∈ memberFrags [] "m" "" ("good", (PyObj.mk "7" "<class 'int'>" none []).rep,
        (PyObj.mk "7" "<class 'int'>" none []).typ,
        PyObj.mk "7" "<class 'int'>" none []),
      f ∈ writeObjectStub [] (PyObj.mk "<module 'm'>" "<class 'module'>" none
        [("bad", some "boom", PyObj.mk "?" "?" none []),
         ("good", none, PyObj.mk "7" "<class 'int'>" none [])]) "m" "")) :=
  ⟨by simp, by decide, by decide,
   C4_partial_failure [] "m" "" "<module 'm'>" "<class 'module'>" none
     [("bad", some "boom", PyObj.mk "?" "?" none []),
      ("good", none, PyObj.mk "7" "<class 'int'>" none [])]
     "good" (PyObj.mk "7" "<class 'int'>" none []) (by simp) (by decide) (by decide)⟩

theorem mem_insertModule (a : String) (l : List String) : a ∈ insertModule a l := by
  unfold insertModule
  split_ifs with h
  · exact h
  · simp

theorem erase_append_singleton {a : String} {l : List String} (h : a ∉ l) :
    (l ++ [a]).erase a = l := by
  rw [List.erase_append_right _ h]
  simp

/-- A concrete one-module environment: only `json` is importable. -/
def envJson : String → Option PyObj := fun n =>
  if n = "json" then some (PyObj.mk "<module 'json'>" "<class 'module'>" none []) else none

/-- C6 counterexample: in the full variant (`createstubs.py`), after a
successful stub of the non-allow-listed module `json` (the file was
written and the module reported), `json` is STILL in the interpreter's
module cache: `dump_module_stub` only runs `del new_module` on its local
reference and never touches `sys.modules`. -/
theorem C6_full_variant_leaves_cache :
    "json" ∉ allowList ∧
    (dump_module_stub envJson problematicDefault excludedDefault "fw" "un" "json"
      "stubs/json.py" ⟨[], [], [], 0⟩).report = ["json"] ∧
    "json" ∈ (dump_module_stub envJson problematicDefault excludedDefault "fw" "un" "json"
      "stubs/json.py" ⟨[], [], [], 0⟩).sysModules := by
  decide

/-- C6 (amended): the minimal variant (`createstubs_min.py`) does evict
a successfully stubbed module from the module cache and bumps the
reclamation counter unless the name is allow-listed, and an allow-listed
module stays cached with no reclamation; the full variant
(`createstubs.py`) leaves every stubbed module in the cache — it only
drops its local reference. -/
theorem C6_eviction_allowlist (env : String → Option PyObj) (prob excl : List String)
    (fwid uname name fn : String) (st : SysState) (m : PyObj) (inc : Bool)
    (h1 : ¬(pyStartsWith name "_" = true ∧ name ≠ "_thread"))
    (h2 : name ∉ prob) (h3 : hasChar name '/' = false)
    (h4 : env name = some m) (h5 : name ∉ st.sysModules) :
    (name ∉ allowList →
      name ∉ (create_module_stub env prob inc fwid uname name fn st).sysModules ∧
      (create_module_stub env prob inc fwid uname name fn st).gcRuns = st.gcRuns + 1) ∧
    (name ∈ allowList →
      (create_module_stub env prob inc fwid uname name fn st).sysModules =
        st.sysModules ++ [name] ∧
      (create_module_stub env prob inc fwid uname name fn st).gcRuns = st.gcRuns) ∧
    name ∈ (dump_module_stub env prob excl fwid uname name fn st).sysModules := by
  have hmod : insertModule name st.sysModules = st.sysModules ++ [name] := by
    unfold insertModule
    simp [h5]
  have hmin : create_module_stub env prob inc fwid uname name fn st =
      (if name ∉ allowList then
        { sysModules := (st.sysModules ++ [name]).erase name,
          files := st.files ++ [(fn, stubHeader name fwid uname "1.2.0" ::
            (writeObjectStub prob m name "").map Frag.render)],
          report := st.report ++ [name],
          gcRuns := st.gcRuns + 1 }
      else
        { sysModules := st.sysModules ++ [name],
          files := st.files ++ [(fn, stubHeader name fwid uname "1.2.0" ::
            (writeObjectStub prob m name "").map Frag.render)],
          report := st.report ++ [name],
          gcRuns := st.gcRuns }) := by
    simp only [create_module_stub]
    rw [if_neg h1, if_neg h2]
    simp [h3, h4, hmod]
  refine ⟨?_, ?_, ?_⟩
  · intro hal
    rw [hmin, if_pos hal]
    refine ⟨?_, rfl⟩
    rw [erase_append_singleton h5]
    exact h5
  · intro hal
    rw [hmin, if_neg (by simpa using hal)]
    exact ⟨rfl, rfl⟩
  · simp only [dump_module_stub]
    rw [if_neg h1, if_neg h2]
    simp only [h3, Bool.false_eq_true, if_false, h4]
    split_ifs <;> simp [hmod]

/-- Witness for C6 (amended) on the concrete `json` environment. -/
theorem C6_eviction_allowlist_witness :
    (¬(pyStartsWith "json" "_" = true ∧ "json" ≠ "_thread")) ∧
    ("json" ∉ problematicDefault) ∧ hasChar "json" '/' = false ∧
    envJson "json" = some (PyObj.mk "<module 'json'>" "<class 'module'>" none []) ∧
    ("json" ∉ (⟨[], [], [], 0⟩ : SysState).sysModules) ∧
    (("json" ∉ allowList →
      "json" ∉ (create_module_stub envJson problematicDefault true "fw" "un" "json"
        "stubs/json.py" ⟨[], [], [], 0⟩).sysModules ∧
      (create_module_stub envJson problematicDefault true "fw" "un" "json"
        "stubs/json.py" ⟨[], [], [], 0⟩).gcRuns = (⟨[], [], [], 0⟩ : SysState).gcRuns + 1) ∧
    ("json" ∈ allowList →
      (create_module_stub envJson problematicDefault true "fw" "un" "json"
        "stubs/json.py" ⟨[], [], [], 0⟩).sysModules =
        (⟨[], [], [], 0⟩ : SysState).sysModules ++ ["json"] ∧
      (create_module_stub envJson problematicDefault true "fw" "un" "json"
        "stubs/json.py" ⟨[], [], [], 0⟩).gcRuns = (⟨[], [], [], 0⟩ : SysState).gcRuns) ∧
    "json" ∈ (dump_module_stub envJson problematicDefault excludedDefault "fw" "un" "json"
      "stubs/json.py" ⟨[], [], [], 0⟩).sysModules) :=
  ⟨by decide, by decide, by decide, rfl, by decide,
   C6_eviction_allowlist envJson problematicDefault excludedDefault "fw" "un" "json"
     "stubs/json.py" ⟨[], [], [], 0⟩ (PyObj.mk "<module 'json'>" "<class 'module'>" none [])
     true (by decide) (by decide) (by decide) rfl (by decide)⟩

/-- A concrete one-module environment: only `webrepl` is importable. -/
def envWebrepl : String → Option PyObj := fun n =>
  if n = "webrepl" then some (PyObj.mk "<module 'webrepl'>" "<class 'module'>" none [])
  else none

/-- C7 counterexample: `webrepl` is on the excluded list, yet the full
variant's `dump_module_stub` still produces output for it — a stub file
holding the header — because the excluded check happens only after the
file is opened and the header written. -/
theorem C7_excluded_still_writes_header :
    "webrepl" ∈ excludedDefault ∧
    (dump_module_stub envWebrepl problematicDefault excludedDefault "fw" "un" "webrepl"
      "stubs/webrepl.py" ⟨[], [], [], 0⟩).files =
      [("stubs/webrepl.py", [stubHeader "webrepl" "fw" "un" "1.0.1"])] := by
  decide

/-- C7 (amended): an excluded module's members are never introspected —
the full variant writes exactly a header-only file and adds no report
entry, while the minimal variant's loop skips the module entirely,
leaving the state untouched. -/
theorem C7_excluded_skipped (env : String → Option PyObj) (prob excl : List String)
    (fwid uname name fn path : String) (st : SysState) (m : PyObj)
    (memFree : Nat → Nat) (i : Nat) (inc : Bool)
    (h1 : ¬(pyStartsWith name "_" = true ∧ name ≠ "_thread"))
    (h2 : name ∉ prob) (h3 : hasChar name '/' = false)
    (h4 : env name = some m) (h5 : name ∈ excl) :
    (dump_module_stub env prob excl fwid uname name fn st).files =
      st.files ++ [(fn, [stubHeader name fwid uname "1.0.1"])] ∧
    (dump_module_stub env prob excl fwid uname name fn st).report = st.report ∧
    create_all_stubs_loop env prob excl memFree path fwid uname [name] i inc st = st := by
  refine ⟨?_, ?_, ?_⟩
  · simp only [dump_module_stub]
    rw [if_neg h1, if_neg h2]
    simp only [h3, Bool.false_eq_true, if_false, h4]
    simp [h5]
    split_ifs <;> rfl
  · simp only [dump_module_stub]
    rw [if_neg h1, if_neg h2]
    simp only [h3, Bool.false_eq_true, if_false, h4]
    simp [h5]
    split_ifs <;> rfl
  · simp only [create_all_stubs_loop]
    rw [if_neg h1, if_neg h2]
    simp [h5]

/-- Witness for C7 (amended) on the concrete `webrepl` environment. -/
theorem C7_excluded_skipped_witness :
    (¬(pyStartsWith "webrepl" "_" = true ∧ "webrepl" ≠ "_thread")) ∧
    ("webrepl" ∉ problematicDefault) ∧ hasChar "webrepl" '/' = false ∧
    envWebrepl "webrepl" = some (PyObj.mk "<module 'webrepl'>" "<class 'module'>" none []) ∧
    "webrepl" ∈ excludedDefault ∧
    ((dump_module_stub envWebrepl problematicDefault excludedDefault "fw" "un" "webrepl"
        "stubs/webrepl.py" ⟨[], [], [], 0⟩).files =
      (⟨[], [], [], 0⟩ : SysState).files ++
        [("stubs/webrepl.py", [stubHeader "webrepl" "fw" "un" "1.0.1"])] ∧
    (dump_module_stub envWebrepl problematicDefault excludedDefault "fw" "un" "webrepl"
        "stubs/webrepl.py" ⟨[], [], [], 0⟩).report = (⟨[], [], [], 0⟩ : SysState).report ∧
    create_all_stubs_loop envWebrepl problematicDefault excludedDefault (fun _ => 9999)
      "stubs" "fw" "un" ["webrepl"] 0 true ⟨[], [], [], 0⟩ = ⟨[], [], [], 0⟩) :=
  ⟨by decide, by decide, by decide, rfl, by decide,
   C7_excluded_skipped envWebrepl problematicDefault excludedDefault "fw" "un" "webrepl"
     "stubs/webrepl.py" "stubs" ⟨[], [], [], 0⟩
     (PyObj.mk "<module 'webrepl'>" "<class 'module'>" none []) (fun _ => 9999) 0 true
     (by decide) (by decide) (by decide) rfl (by decide)⟩

/-- With the governor off, a nested module name returns before import:
the state is unchanged for every environment. -/
theorem create_module_stub_nested_off (env : String → Option PyObj) (prob : List String)
    (fwid uname name fn : String) (st : SysState) (h : hasChar name '/' = true) :
    create_module_stub env prob false fwid uname name fn st = st := by
  by_cases h1 : pyStartsWith name "_" = true ∧ name ≠ "_thread"
  · simp only [create_module_stub, if_pos h1]
  · by_cases h2 : name ∈ prob
    · simp only [create_module_stub, if_neg h1, if_pos h2]
    · simp only [create_module_stub, if_neg h1, if_neg h2]
      rw [if_pos ⟨h, trivial⟩]

/-- A non-nested module is processed identically whatever the governor
flag says. -/
theorem create_module_stub_inc_irrel (env : String → Option PyObj) (prob : List String)
    (fwid uname name fn : String) (st : SysState) (inc inc2 : Bool)
    (h : hasChar name '/' = false) :
    create_module_stub env prob inc fwid uname name fn st =
      create_module_stub env prob inc2 fwid uname name fn st := by
  simp only [create_module_stub]
  simp [h]

/-- C9: in the minimal variant, a free-memory reading at or below the
3200-byte threshold short-circuits only the optional nested branch:
(a) with the governor off a nested (`'/'`) module is skipped with no
state change before any import; (b) a non-nested module is processed
identically whatever the governor says; (c) a loop step on a nested
module under a low reading just latches the governor off and moves on;
(d) a catalog without nested names runs to completion entirely
independently of the governor and of every memory reading. -/
theorem C9_low_memory_skips_nested_only (env : String → Option PyObj) (prob : List String)
    (fwid uname path : String) (memFree memFree2 : Nat → Nat) (mods : List String) :
    (∀ name fn st, hasChar name '/' = true →
      create_module_stub env prob false fwid uname name fn st = st) ∧
    (∀ name fn st inc inc2, hasChar name '/' = false →
      create_module_stub env prob inc fwid uname name fn st =
        create_module_stub env prob inc2 fwid uname name fn st) ∧
    (∀ m rest excl i st inc, hasChar m '/' = true → memFree i ≤ 3200 →
      create_all_stubs_loop env prob excl memFree path fwid uname (m :: rest) i inc st =
        create_all_stubs_loop env prob excl memFree path fwid uname rest (i + 1) false st) ∧
    (∀ excl st i inc inc2, (∀ m ∈ mods, hasChar m '/' = false) →
      create_all_stubs_loop env prob excl memFree path fwid uname mods i inc st =
        create_all_stubs_loop env prob excl memFree2 path fwid uname mods i inc2 st) := by
  refine ⟨fun name fn st h => create_module_stub_nested_off env prob fwid uname name fn st h,
    fun name fn st inc inc2 h =>
      create_module_stub_inc_irrel env prob fwid uname name fn st inc inc2 h, ?_, ?_⟩
  · intro m rest excl i st inc h hlow
    simp only [create_all_stubs_loop]
    have hinc : (if inc then decide (memFree i > 3200) else inc) = false := by
      cases inc
      · rfl
      · simp
        omega
    rw [hinc]
    have hst2 : (if pyStartsWith m "_" = true ∧ m ≠ "_thread" then st
        else if m ∈ prob then st
        else if m ∈ excl then st
        else create_module_stub env prob false fwid uname m (stubFileName path m) st) =
        st := by
      split_ifs
      · rfl
      · rfl
      · rfl
      · exact create_module_stub_nested_off env prob fwid uname m (stubFileName path m) st h
    rw [hst2]
  · intro excl st i inc inc2 hall
    induction mods generalizing st i inc inc2 with
    | nil => rfl
    | cons m rest ih =>
      simp only [create_all_stubs_loop]
      have hm : hasChar m '/' = false := hall m (List.mem_cons_self m rest)
      have hst2 : (if pyStartsWith m "_" = true ∧ m ≠ "_thread" then st
          else if m ∈ prob then st
          else if m ∈ excl then st
          else create_module_stub env prob (if inc then decide (memFree i > 3200) else inc)
            fwid uname m (stubFileName path m) st) =
          (if pyStartsWith m "_" = true ∧ m ≠ "_thread" then st
          else if m ∈ prob then st
          else if m ∈ excl then st
          else create_module_stub env prob (if inc2 then decide (memFree2 i > 3200) else inc2)
            fwid uname m (stubFileName path m) st) := by
        split_ifs
        any_goals rfl
        all_goals
          exact create_module_stub_inc_irrel env prob fwid uname m (stubFileName path m)
            st _ _ hm
      rw [hst2]
      exact ih _ _ _ _ (fun m2 hm2 => hall m2 (List.mem_cons_of_mem m hm2))

/-- Witness for C9 on a concrete nested name with a low reading. -/
theorem C9_low_memory_skips_nested_only_witness :
    hasChar "umqtt/robust" '/' = true ∧
    create_module_stub envJson problematicDefault false "fw" "un" "umqtt/robust"
      "stubs/umqtt/robust.py" ⟨[], [], [], 0⟩ = ⟨[], [], [], 0⟩ :=
  ⟨by decide,
   (C9_low_memory_skips_nested_only envJson problematicDefault "fw" "un" "stubs"
     (fun _ => 1000) (fun _ => 1000) []).1 "umqtt/robust" "stubs/umqtt/robust.py"
     ⟨[], [], [], 0⟩ (by decide)⟩

instance : IsTotal String (fun a b => strLe a b = true) := ⟨strLe_total⟩

instance : IsTrans String (fun a b => strLe a b = true) :=
  ⟨fun _ _ _ h1 h2 => strLe_trans h1 h2⟩

theorem add_modules_mem {x : String} (cur new : List String) :
    x ∈ add_modules cur new ↔ x ∈ cur ∨ x ∈ new := by
  unfold add_modules
  rw [(List.perm_insertionSort _ _).mem_iff, List.mem_dedup, List.mem_append]

theorem add_modules_sorted (cur new : List String) :
    List.Pairwise (fun a b => strLe a b = true) (add_modules cur new) :=
  List.sorted_insertionSort _ _

theorem add_modules_nodup (cur new : List String) : (add_modules cur new).Nodup :=
  ((List.perm_insertionSort _ _).nodup_iff).mpr (List.nodup_dedup _)

/-- Two sorted duplicate-free string lists with the same members are
equal. -/
theorem sorted_nodup_eq_of_mem {l1 l2 : List String}
    (hs1 : List.Pairwise (fun a b => strLe a b = true) l1)
    (hs2 : List.Pairwise (fun a b => strLe a b = true) l2)
    (hn1 : l1.Nodup) (hn2 : l2.Nodup) (hm : ∀ x, x ∈ l1 ↔ x ∈ l2) : l1 = l2 := by
  have hp : l1.Perm l2 := (List.perm_ext_iff_of_nodup hn1 hn2).mpr hm
  exact eq_of_perm_of_sorted_key (fun x => x) l1 l2 hp hs1 hs2 (by simpa using hn1)

/-- C10: `add_modules` leaves the catalog sorted in ascending lexical
order and free of duplicates; it is idempotent, insensitive to the
order of the added names, and adding names already present leaves a
canonical catalog unchanged. -/
theorem C10_add_modules_canonical (cur new new2 : List String) (hp : new.Perm new2) :
    List.Pairwise (fun a b => strLe a b = true) (add_modules cur new) ∧
    (add_modules cur new).Nodup ∧
    add_modules (add_modules cur new) new = add_modules cur new ∧
    add_modules cur new = add_modules cur new2 ∧
    (∀ cat extra : List String, List.Pairwise (fun a b => strLe a b = true) cat →
      cat.Nodup → (∀ x ∈ extra, x ∈ cat) → add_modules cat extra = cat) := by
  refine ⟨add_modules_sorted cur new, add_modules_nodup cur new, ?_, ?_, ?_⟩
  · apply sorted_nodup_eq_of_mem (add_modules_sorted _ _) (add_modules_sorted _ _)
      (add_modules_nodup _ _) (add_modules_nodup _ _)
    intro x
    rw [add_modules_mem, add_modules_mem]
    tauto
  · apply sorted_nodup_eq_of_mem (add_modules_sorted _ _) (add_modules_sorted _ _)
      (add_modules_nodup _ _) (add_modules_nodup _ _)
    intro x
    rw [add_modules_mem, add_modules_mem, hp.mem_iff]
  · intro cat extra hs hn hsub
    apply sorted_nodup_eq_of_mem (add_modules_sorted _ _) hs (add_modules_nodup _ _) hn
    intro x
    rw [add_modules_mem]
    constructor
    · rintro (h | h)
      · exact h
      · exact hsub x h
    · exact Or.inl

/-- Witness for C10 with the same names in swapped order. -/
theorem C10_add_modules_canonical_witness :
    (["b", "a"] : List String).Perm ["a", "b"] ∧
    (List.Pairwise (fun a b => strLe a b = true) (add_modules ["os", "gc"] ["b", "a"]) ∧
    (add_modules ["os", "gc"] ["b", "a"]).Nodup ∧
    add_modules (add_modules ["os", "gc"] ["b", "a"]) ["b", "a"] =
      add_modules ["os", "gc"] ["b", "a"] ∧
    add_modules ["os", "gc"] ["b", "a"] = add_modules ["os", "gc"] ["a", "b"] ∧
    (∀ cat extra : List String, List.Pairwise (fun a b => strLe a b = true) cat →
      cat.Nodup → (∀ x ∈ extra, x ∈ cat) → add_modules cat extra = cat)) :=
  ⟨List.Perm.swap "a" "b" [],
   C10_add_modules_canonical ["os", "gc"] ["b", "a"] ["a", "b"] (List.Perm.swap "a" "b" [])⟩

end CreateStubs
